import Mathlib

/-
Verification of the `VideoThumbnail` widget
(src/src/components/VideoThumbnail.tsx).

The component is a single React function component whose behaviour is
driven by seven boolean state hooks, two console log channels, a video
ref, and a fixed set of UI-thread callbacks (the click handler, the
intersection-observer callback, the media-element callbacks, the poster
image callbacks and the document-level fullscreen-change listener).

The shallow embedding below gives:
  * `WidgetState`   — the state hooks, plus the video ref and log counters;
  * `Props`         — the construction-time configuration relevant to
                      rendered output;
  * `getThumbnailPath` — the poster path derivation (JS numeric truthiness);
  * `handleClick`   — the click handler, with the awaited platform
                      `play()` outcome passed in as a `PlayResult`;
  * `step` / `run`  — one UI-thread event, and a fold over an event trace;
  * `render`        — which conditional elements appear in the returned
                      markup for a given state and props.
-/

namespace VideoThumbnail

/-- Outcome of the awaited platform `videoRef.current.play()` call inside
`handleClick`: the promise either resolves or rejects. -/
inductive PlayResult where
  | success
  | rejected
deriving DecidableEq, Repr

/-- Construction-time configuration of the widget.  `aspectRatio` and
`className` influence styling classes only, never which elements exist,
so they are omitted; `isShowreel` only sets the `loop` attribute. -/
structure Props where
  src : String
  title : String
  isShowreel : Bool
  thumbnailIndex : Option Nat
deriving DecidableEq, Repr

/-- The React state hooks of `VideoThumbnail` as a record, together with
whether `videoRef.current` is non-null (`videoRefSet`) and counters for
the two console channels the component writes to (`console.error` and
`console.warn`). -/
structure WidgetState where
  isPlaying : Bool
  isFullscreen : Bool
  isInView : Bool
  videoLoaded : Bool
  isLoading : Bool
  hasInteracted : Bool
  thumbnailLoaded : Bool
  videoRefSet : Bool
  errorsLogged : Nat
  warningsLogged : Nat
deriving DecidableEq, Repr

/-- Every `useState` hook starts at `false`; `videoRef.current` starts
null; nothing has been logged. -/
def initialState : WidgetState :=
  { isPlaying := false
    isFullscreen := false
    isInView := false
    videoLoaded := false
    isLoading := false
    hasInteracted := false
    thumbnailLoaded := false
    videoRefSet := false
    errorsLogged := 0
    warningsLogged := 0 }

/-- `getThumbnailPath` from the source.  The JS guard
`if (thumbnailIndex)` is a numeric truthiness test: it is false when the
prop is absent (`undefined`) and also when the supplied number is `0`. -/
def getThumbnailPath (thumbnailIndex : Option Nat) : Option String :=
  match thumbnailIndex with
  | some i => if i ≠ 0 then some ("/thumbnails/" ++ toString i ++ ".jpg") else none
  | none => none

/-- `handleClick` from the source.  The handler returns at once when
`videoRef.current` is null; otherwise it sets `hasInteracted`, calls
`loadVideo()` when needed (which assigns `video.src` and calls
`video.load()` — DOM effects only, no React state change), then either
pauses synchronously or sets the loading flag and awaits `play()`,
whose outcome is the extra argument `r`.  On resolution it sets
`isPlaying` and clears `isLoading`; on rejection it logs one
`console.error` and clears `isLoading`. -/
def handleClick (s : WidgetState) (r : PlayResult) : WidgetState :=
  if s.videoRefSet = false then
    s
  else
    let s1 := { s with hasInteracted := true }
    if s1.isPlaying then
      { s1 with isPlaying := false }
    else
      let s2 := { s1 with isLoading := true }
      match r with
      | PlayResult.success => { s2 with isPlaying := true, isLoading := false }
      | PlayResult.rejected =>
          { s2 with isLoading := false, errorsLogged := s2.errorsLogged + 1 }

/-- The UI-thread events that can change widget state.
  * `click r`           — the container click handler, with play outcome `r`;
  * `observerCallback b` — the intersection-observer callback, `b` the
    entry's `isIntersecting`;
  * `videoLoadedData`, `videoPlay`, `videoPause`, `videoEnded`,
    `videoLoadStart`, `videoCanPlay`, `videoError` — the media element's
    callbacks;
  * `imgLoad`, `imgError` — the poster image's callbacks;
  * `fullscreenChange b` — the document-level listener, `b` whether
    `document.fullscreenElement` is non-null;
  * `refAttach`         — React attaching `videoRef.current`, which can
    only happen when the video element is mounted, i.e. when
    `hasInteracted` is already true.
The fullscreen button's own handler calls only browser APIs
(`requestFullscreen` / `exitFullscreen`) and changes no React state, so
it needs no event of its own. -/
inductive Event where
  | click (r : PlayResult)
  | observerCallback (isIntersecting : Bool)
  | videoLoadedData
  | videoPlay
  | videoPause
  | videoEnded
  | videoLoadStart
  | videoCanPlay
  | videoError
  | imgLoad
  | imgError
  | fullscreenChange (fullscreenElement : Bool)
  | refAttach
deriving DecidableEq, Repr

/-- One UI-thread event applied to the state, following the source
handlers line by line. -/
def step (s : WidgetState) (e : Event) : WidgetState :=
  match e with
  | Event.click r => handleClick s r
  | Event.observerCallback b => if b then { s with isInView := true } else s
  | Event.videoLoadedData => { s with videoLoaded := true }
  | Event.videoPlay => { s with isPlaying := true, isLoading := false }
  | Event.videoPause => { s with isPlaying := false }
  | Event.videoEnded => { s with isPlaying := false }
  | Event.videoLoadStart => { s with isLoading := true }
  | Event.videoCanPlay => { s with isLoading := false }
  | Event.videoError =>
      { s with isLoading := false, errorsLogged := s.errorsLogged + 1 }
  | Event.imgLoad => { s with thumbnailLoaded := true }
  | Event.imgError =>
      { s with thumbnailLoaded := false, warningsLogged := s.warningsLogged + 1 }
  | Event.fullscreenChange b => { s with isFullscreen := b }
  | Event.refAttach => if s.hasInteracted then { s with videoRefSet := true } else s

/-- A trace of UI-thread events applied in order. -/
def run (s : WidgetState) (es : List Event) : WidgetState :=
  es.foldl step s

/-- Which conditionally-rendered elements appear in the returned markup:
the poster `img`, the `video` element, and the generic loading/fallback
panel.  (The play-button overlay, hover overlay, fullscreen button and
title badge are unconditionally present and carry styling only.) -/
structure RenderOutput where
  posterImgPresent : Bool
  videoElementPresent : Bool
  fallbackPanelPresent : Bool
deriving DecidableEq, Repr

/-- The render conditions from the source markup:
  * poster `img`:   `thumbnailPath && isInView`;
  * `video`:        `hasInteracted`;
  * fallback panel: `!thumbnailLoaded && !thumbnailPath`. -/
def render (p : Props) (s : WidgetState) : RenderOutput :=
  let thumbnailPath := getThumbnailPath p.thumbnailIndex
  { posterImgPresent := thumbnailPath.isSome && s.isInView
    videoElementPresent := s.hasInteracted
    fallbackPanelPresent := !s.thumbnailLoaded && thumbnailPath.isNone }

/-
Helper lemmas shared by the claim theorems below.
-/

/-- The click handler never touches the in-view latch. -/
theorem handleClick_isInView (s : WidgetState) (r : PlayResult) :
    (handleClick s r).isInView = s.isInView := by
  cases hv : s.videoRefSet <;> cases hp : s.isPlaying <;> cases r <;>
    simp [handleClick, hv, hp]

/-- The click handler never unsets `hasInteracted`. -/
theorem handleClick_hasInteracted (s : WidgetState) (r : PlayResult)
    (h : s.hasInteracted = true) : (handleClick s r).hasInteracted = true := by
  cases hv : s.videoRefSet <;> cases hp : s.isPlaying <;> cases r <;>
    simp [handleClick, hv, hp, h]

/-- With a null video ref the click handler is the identity on state. -/
theorem handleClick_noRef (s : WidgetState) (r : PlayResult)
    (h : s.videoRefSet = false) : handleClick s r = s := by
  simp [handleClick, h]

/-- No single event unsets the in-view latch. -/
theorem step_isInView_mono (s : WidgetState) (e : Event)
    (h : s.isInView = true) : (step s e).isInView = true := by
  cases e with
  | click r => rw [step, handleClick_isInView]; exact h
  | observerCallback b => cases b <;> simp [step, h]
  | refAttach => by_cases hi : s.hasInteracted = true <;> simp [step, hi, h]
  | _ => simp [step, h]

/-- No single event unsets `hasInteracted`. -/
theorem step_hasInteracted_mono (s : WidgetState) (e : Event)
    (h : s.hasInteracted = true) : (step s e).hasInteracted = true := by
  cases e with
  | click r => exact handleClick_hasInteracted s r h
  | observerCallback b => cases b <;> simp [step, h]
  | refAttach => simp [step, h]
  | _ => simp [step, h]

/-- No trace of events unsets the in-view latch. -/
theorem run_isInView_mono (es : List Event) :
    ∀ s : WidgetState, s.isInView = true → (run s es).isInView = true := by
  induction es with
  | nil => intro s h; exact h
  | cons e es ih =>
      intro s h
      exact ih (step s e) (step_isInView_mono s e h)

/-- An event other than an intersecting observer callback leaves the
in-view latch exactly as it was. -/
theorem step_isInView_eq (s : WidgetState) (e : Event)
    (h : e ≠ Event.observerCallback true) : (step s e).isInView = s.isInView := by
  cases e with
  | click r => exact handleClick_isInView s r
  | observerCallback b =>
      cases b with
      | false => simp [step]
      | true => exact absurd rfl h
  | refAttach => by_cases hi : s.hasInteracted = true <;> simp [step, hi]
  | _ => simp [step]

/-- A trace with no intersecting observer callback leaves the in-view
latch exactly as it was. -/
theorem run_isInView_eq (es : List Event) :
    ∀ s : WidgetState, (∀ e ∈ es, e ≠ Event.observerCallback true) →
      (run s es).isInView = s.isInView := by
  induction es with
  | nil => intro s _; rfl
  | cons e es ih =>
      intro s h
      have he : e ≠ Event.observerCallback true := h e (List.mem_cons_self e es)
      have hrest : ∀ x ∈ es, x ≠ Event.observerCallback true :=
        fun x hx => h x (List.mem_cons_of_mem e hx)
      calc (run s (e :: es)).isInView
          = (run (step s e) es).isInView := rfl
        _ = (step s e).isInView := ih (step s e) hrest
        _ = s.isInView := step_isInView_eq s e he

/-- Running a concatenated trace is running the pieces in order. -/
theorem run_append (s : WidgetState) (es es2 : List Event) :
    run s (es ++ es2) = run (run s es) es2 :=
  List.foldl_append step s es es2

/-- If `hasInteracted` and the video ref are both unset, one event keeps
them both unset: the click handler returns at the null-ref guard, and
React cannot attach the ref while the video element is unmounted. -/
theorem step_notInteracted (s : WidgetState) (e : Event)
    (h1 : s.hasInteracted = false) (h2 : s.videoRefSet = false) :
    (step s e).hasInteracted = false ∧ (step s e).videoRefSet = false := by
  cases e with
  | click r => rw [step, handleClick_noRef s r h2]; exact ⟨h1, h2⟩
  | observerCallback b => cases b <;> simp [step, h1, h2]
  | refAttach => simp [step, h1, h2]
  | _ => simp [step, h1, h2]

/-- From any state with `hasInteracted` and the video ref both unset, no
trace of events sets either. -/
theorem run_notInteracted (es : List Event) :
    ∀ s : WidgetState, s.hasInteracted = false → s.videoRefSet = false →
      (run s es).hasInteracted = false ∧ (run s es).videoRefSet = false := by
  induction es with
  | nil => intro s h1 h2; exact ⟨h1, h2⟩
  | cons e es ih =>
      intro s h1 h2
      have h := step_notInteracted s e h1 h2
      exact ih (step s e) h.1 h.2

/-
Claim theorems.
-/

/-- C1: for every click handled while the widget is not playing, if the
platform playback request succeeds, the final state has `isPlaying` true
and `isLoading` false.  A playback request only happens when the click
passes the null-ref guard, so `videoRefSet` is a hypothesis. -/
theorem click_success_plays (s : WidgetState)
    (href : s.videoRefSet = true) (hnp : s.isPlaying = false) :
    (handleClick s PlayResult.success).isPlaying = true ∧
    (handleClick s PlayResult.success).isLoading = false := by
  simp [handleClick, href, hnp]

/-- Witness for C1 at a concrete not-playing state with the ref attached. -/
theorem click_success_plays_witness :
    ({ initialState with videoRefSet := true, hasInteracted := true } :
        WidgetState).videoRefSet = true ∧
    (handleClick { initialState with videoRefSet := true, hasInteracted := true }
        PlayResult.success).isPlaying = true :=
  ⟨rfl, (click_success_plays
    { initialState with videoRefSet := true, hasInteracted := true } rfl rfl).1⟩

/-- C2: for every click handled while the widget is not playing, if the
platform playback request is rejected, the final state remains
not-playing, `isLoading` is false, exactly one `console.error` is
written, and no other state field changes.  A playback request requires
the null-ref guard to pass (`videoRefSet`), and the ref only attaches to
a mounted video element, so `hasInteracted` already holds. -/
theorem click_rejected_clean (s : WidgetState)
    (href : s.videoRefSet = true) (hnp : s.isPlaying = false)
    (hint : s.hasInteracted = true) :
    (handleClick s PlayResult.rejected).isPlaying = false ∧
    (handleClick s PlayResult.rejected).isLoading = false ∧
    (handleClick s PlayResult.rejected).errorsLogged = s.errorsLogged + 1 ∧
    (handleClick s PlayResult.rejected).isFullscreen = s.isFullscreen ∧
    (handleClick s PlayResult.rejected).isInView = s.isInView ∧
    (handleClick s PlayResult.rejected).videoLoaded = s.videoLoaded ∧
    (handleClick s PlayResult.rejected).hasInteracted = s.hasInteracted ∧
    (handleClick s PlayResult.rejected).thumbnailLoaded = s.thumbnailLoaded ∧
    (handleClick s PlayResult.rejected).videoRefSet = s.videoRefSet ∧
    (handleClick s PlayResult.rejected).warningsLogged = s.warningsLogged := by
  simp [handleClick, href, hnp, hint]

/-- Witness for C2 at a concrete not-playing state with the ref attached. -/
theorem click_rejected_clean_witness :
    (handleClick { initialState with videoRefSet := true, hasInteracted := true }
        PlayResult.rejected).isPlaying = false ∧
    (handleClick { initialState with videoRefSet := true, hasInteracted := true }
        PlayResult.rejected).errorsLogged =
      ({ initialState with videoRefSet := true, hasInteracted := true } :
        WidgetState).errorsLogged + 1 :=
  ⟨(click_rejected_clean
      { initialState with videoRefSet := true, hasInteracted := true }
      rfl rfl rfl).1,
   (click_rejected_clean
      { initialState with videoRefSet := true, hasInteracted := true }
      rfl rfl rfl).2.2.1⟩

/-- C3: the video element is present in the rendered markup exactly when
`hasInteracted` is true, for every state and every props record; in
particular it is absent whenever `hasInteracted` is false. -/
theorem video_element_iff_hasInteracted (p : Props) (s : WidgetState) :
    (render p s).videoElementPresent = s.hasInteracted :=
  rfl

/-- C4: with a null video ref the click handler changes nothing, and
since the ref only attaches once `hasInteracted` already holds, no event
trace from the initial state — clicks included — ever moves
`hasInteracted` (or the ref) off false. -/
theorem clicks_never_interact :
    (∀ (s : WidgetState) (r : PlayResult),
      s.videoRefSet = false → handleClick s r = s) ∧
    (∀ es : List Event, (run initialState es).hasInteracted = false ∧
      (run initialState es).videoRefSet = false) :=
  ⟨handleClick_noRef,
   fun es => run_notInteracted es initialState rfl rfl⟩

/-- Witness for C4: a concrete click is a no-op at the initial state, and
a concrete trace of clicks and a ref-attach attempt leaves
`hasInteracted` false. -/
theorem clicks_never_interact_witness :
    handleClick initialState PlayResult.success = initialState ∧
    (run initialState
      [Event.click PlayResult.success, Event.refAttach,
       Event.click PlayResult.rejected]).hasInteracted = false :=
  ⟨clicks_never_interact.1 initialState PlayResult.success rfl,
   (clicks_never_interact.2
      [Event.click PlayResult.success, Event.refAttach,
       Event.click PlayResult.rejected]).1⟩

/-- C5 counterexample: the poster index `0` is supplied, yet the derived
path is `none` rather than `/thumbnails/0.jpg`, because the JS guard
`if (thumbnailIndex)` is falsy at `0`; so absence of the index is not
the only way to get no poster path. -/
theorem thumb_zero_counterexample :
    getThumbnailPath (some 0) = none ∧
    getThumbnailPath (some 0) ≠ some "/thumbnails/0.jpg" := by
  constructor
  · rfl
  · intro h
    simp [getThumbnailPath] at h

/-- C5 amended: for every supplied nonzero poster index `i` the derived
path is `/thumbnails/{i}.jpg`; absence of the index, or the index `0`
(falsy in JS), yields no poster path. -/
theorem thumb_path_nonzero (i : Nat) (h : i ≠ 0) :
    getThumbnailPath (some i) = some ("/thumbnails/" ++ toString i ++ ".jpg") ∧
    getThumbnailPath none = none ∧
    getThumbnailPath (some 0) = none := by
  refine ⟨?_, rfl, rfl⟩
  simp [getThumbnailPath, h]

/-- Witness for the amended C5 at index 7. -/
theorem thumb_path_nonzero_witness :
    (7 : Nat) ≠ 0 ∧
    getThumbnailPath (some 7) = some ("/thumbnails/" ++ toString 7 ++ ".jpg") :=
  ⟨by decide, (thumb_path_nonzero 7 (by decide)).1⟩

/-- C6 counterexample: with no poster index, at a state where a video
frame has loaded and the video is playing, the fallback panel is still
rendered — its render condition `!thumbnailLoaded && !thumbnailPath`
never consults `videoLoaded` or `isPlaying`. -/
theorem fallback_persists_counterexample :
    ({ initialState with videoLoaded := true, isPlaying := true } :
        WidgetState).videoLoaded = true ∧
    ({ initialState with videoLoaded := true, isPlaying := true } :
        WidgetState).isPlaying = true ∧
    (render { src := "v.mp4", title := "t", isShowreel := false,
              thumbnailIndex := none }
      { initialState with videoLoaded := true, isPlaying := true }
      ).fallbackPanelPresent = true := by
  refine ⟨rfl, rfl, ?_⟩
  rfl

/-- C6 amended: when no poster index is supplied, the fallback panel is
rendered exactly when `thumbnailLoaded` is false — in particular it
stays rendered even after a video frame has loaded and the video is
playing, since its render condition ignores `videoLoaded` and
`isPlaying`. -/
theorem fallback_no_poster (s : WidgetState) (src title : String)
    (isShowreel : Bool) :
    (render { src := src, title := title, isShowreel := isShowreel,
              thumbnailIndex := none } s).fallbackPanelPresent =
      !s.thumbnailLoaded := by
  simp [render, getThumbnailPath]

/-- Witness for the amended C6 at the initial state. -/
theorem fallback_no_poster_witness :
    (render { src := "v.mp4", title := "t", isShowreel := false,
              thumbnailIndex := none } initialState).fallbackPanelPresent =
      !initialState.thumbnailLoaded :=
  fallback_no_poster initialState "v.mp4" "t" false

/-- C7: when the poster image errors, the handler logs one warning and
sets `thumbnailLoaded` to false (first conjunct, evaluated on the
reachable failing trace intersect-then-error), but the fallback panel is
still NOT rendered — with a poster path present its render condition
`!thumbnailLoaded && !thumbnailPath` is false at every state (second
conjunct), contradicting the documented fallback behaviour. -/
theorem poster_error_no_fallback :
    ((run initialState
        [Event.observerCallback true, Event.imgError]).thumbnailLoaded = false ∧
     (run initialState
        [Event.observerCallback true, Event.imgError]).warningsLogged = 1 ∧
     (render { src := "v.mp4", title := "t", isShowreel := false,
               thumbnailIndex := some 1 }
       (run initialState
         [Event.observerCallback true, Event.imgError])).fallbackPanelPresent
       = false) ∧
    (∀ s : WidgetState,
      (render { src := "v.mp4", title := "t", isShowreel := false,
                thumbnailIndex := some 1 } s).fallbackPanelPresent = false) := by
  constructor
  · exact ⟨rfl, rfl, rfl⟩
  · intro s
    simp [render, getThumbnailPath]

/-- C8: the in-view latch and `hasInteracted` are monotonic — no single
event of any kind resets either from true back to false. -/
theorem latches_monotonic (s : WidgetState) (e : Event) :
    (s.isInView = true → (step s e).isInView = true) ∧
    (s.hasInteracted = true → (step s e).hasInteracted = true) :=
  ⟨step_isInView_mono s e, step_hasInteracted_mono s e⟩

/-- Witness for C8: a non-intersecting observer callback keeps both
latches set at a concrete state with both true. -/
theorem latches_monotonic_witness :
    (step { initialState with isInView := true, hasInteracted := true }
      (Event.observerCallback false)).isInView = true ∧
    (step { initialState with isInView := true, hasInteracted := true }
      (Event.observerCallback false)).hasInteracted = true :=
  ⟨(latches_monotonic { initialState with isInView := true, hasInteracted := true }
      (Event.observerCallback false)).1 rfl,
   (latches_monotonic { initialState with isInView := true, hasInteracted := true }
      (Event.observerCallback false)).2 rfl⟩

/-- C9: the poster image is never present in the rendered output along a
trace containing no intersecting observer callback (first conjunct), and
once it is present after some trace it remains present after any
further events — the latch is never reset, matching the one-shot
observer that disconnects on first intersection (second conjunct). -/
theorem poster_needs_intersection (p : Props) :
    (∀ es : List Event, (∀ e ∈ es, e ≠ Event.observerCallback true) →
      (render p (run initialState es)).posterImgPresent = false) ∧
    (∀ es es2 : List Event,
      (render p (run initialState es)).posterImgPresent = true →
      (render p (run initialState (es ++ es2))).posterImgPresent = true) := by
  constructor
  · intro es h
    have hin : (run initialState es).isInView = false :=
      (run_isInView_eq es initialState h).trans rfl
    simp [render, hin]
  · intro es es2 h
    rw [render] at h
    rcases Bool.and_eq_true_iff.mp h with ⟨hsome, hin⟩
    rw [run_append]
    have hin2 : (run (run initialState es) es2).isInView = true :=
      run_isInView_mono es2 (run initialState es) hin
    simp [render, hsome, hin2]

/-- Witness for C9 with a poster index supplied: no image before any
event, and the image stays rendered when the widget later receives a
non-intersecting callback (scrolled back out of view) after the first
intersection. -/
theorem poster_needs_intersection_witness :
    (render { src := "v.mp4", title := "t", isShowreel := false,
              thumbnailIndex := some 1 }
      (run initialState [])).posterImgPresent = false ∧
    (render { src := "v.mp4", title := "t", isShowreel := false,
              thumbnailIndex := some 1 }
      (run initialState
        ([Event.observerCallback true] ++
         [Event.observerCallback false]))).posterImgPresent = true :=
  ⟨(poster_needs_intersection
      { src := "v.mp4", title := "t", isShowreel := false,
        thumbnailIndex := some 1 }).1 [] (by intro e he; cases he),
   (poster_needs_intersection
      { src := "v.mp4", title := "t", isShowreel := false,
        thumbnailIndex := some 1 }).2 [Event.observerCallback true]
      [Event.observerCallback false] (by rfl)⟩

/-- C10: from any fullscreen state, a document-level fullscreen-change
event reporting no fullscreen element sets the widget's `isFullscreen`
flag to false. -/
theorem fullscreen_external_exit (s : WidgetState)
    (_h : s.isFullscreen = true) :
    (step s (Event.fullscreenChange false)).isFullscreen = false :=
  rfl

/-- Witness for C10 at a concrete fullscreen state. -/
theorem fullscreen_external_exit_witness :
    (step { initialState with isFullscreen := true }
      (Event.fullscreenChange false)).isFullscreen = false :=
  fullscreen_external_exit { initialState with isFullscreen := true } rfl

end VideoThumbnail
